import Mathlib

/-!
Shallow embedding of the bollingerscanner core: the indicator engine and
classifier (src/lib/indicators.ts), the scan pipeline (processSingleResult /
fetchAll of the batched variant), and the quote-source adapter's cache and
rate-limit state machine (the vite middleware module).

JavaScript numbers are modelled as real numbers; a `null`/`NaN` entry in a
close-price array is modelled as `none` in a `List (Option ℝ)`.
-/

namespace BollingerScanner

/-- The BollingerBand interface of src/lib/indicators.ts. -/
structure BollingerBand where
  upper : ℝ
  middle : ℝ
  lower : ℝ

/-- JS `data.slice(-period)` for a positive `period`: the trailing
`period`-element window (the whole list when it is shorter). -/
def sliceLast (data : List ℝ) (period : ℕ) : List ℝ :=
  data.drop (data.length - period)

/-- calculateSMA of src/lib/indicators.ts: `reduce((a, b) => a + b, 0)` over
`slice(-period)`, divided by `period`; sentinel 0 on short input. -/
noncomputable def calculateSMA (data : List ℝ) (period : ℕ) : ℝ :=
  if data.length < period then 0
  else (sliceLast data period).foldl (· + ·) 0 / period

/-- The variance subexpression of calculateBollingerBands: squared deviations
from the SMA over the trailing window, summed by `reduce`, divided by
`period`. -/
noncomputable def windowVariance (data : List ℝ) (period : ℕ) : ℝ :=
  ((sliceLast data period).map fun val => (val - calculateSMA data period) ^ 2).foldl
    (· + ·) 0 / period

/-- calculateBollingerBands of src/lib/indicators.ts. -/
noncomputable def calculateBollingerBands (data : List ℝ) (period : ℕ) (stdDev : ℝ) :
    Option BollingerBand :=
  if data.length < period then none
  else
    let sma := calculateSMA data period
    let sd := Real.sqrt (windowVariance data period)
    some { middle := sma, upper := sma + sd * stdDev, lower := sma - sd * stdDev }

/-- getBandPosition of src/lib/indicators.ts. -/
noncomputable def getBandPosition (price : ℝ) (bands : BollingerBand) : ℝ :=
  let range := bands.upper - bands.lower
  if range = 0 then 0.5 else (price - bands.lower) / range

/-- getProximityPct of src/lib/indicators.ts. -/
noncomputable def getProximityPct (price : ℝ) (bands : BollingerBand) : ℝ :=
  let halfRange := (bands.upper - bands.lower) / 2
  if halfRange = 0 then 0 else |price - bands.middle| / halfRange * 100

/-- The AlertStatus string union of src/lib/indicators.ts. -/
inductive AlertStatus where
  | ok
  | nearUpper
  | nearLower
  | aboveUpper
  | belowLower
deriving DecidableEq, Repr

/-- The status if-chain of processSingleResult / processChartResult, as a
function of the current price and the bands. -/
noncomputable def classifyStatus (currentPrice : ℝ) (bands : BollingerBand) : AlertStatus :=
  let range := bands.upper - bands.lower
  let threshold := range * 0.05
  if currentPrice ≥ bands.upper then .aboveUpper
  else if currentPrice ≤ bands.lower then .belowLower
  else if currentPrice ≥ bands.upper - threshold then .nearUpper
  else if currentPrice ≤ bands.lower + threshold then .nearLower
  else .ok

/-- A SymbolDef of src/lib/utils.ts: ticker, asset class, display name,
provider lookup key. -/
structure SymbolDef where
  symbol : String
  assetType : String
  display : String
  yahoo : String

/-- The ScannerData record of src/lib/indicators.ts (batched variant, with
bandPosition / proximityPct / fetchError). -/
structure ScannerData where
  symbol : String
  display : String
  currentPrice : ℝ
  bands : Option BollingerBand
  status : AlertStatus
  lastUpdated : ℕ
  history : List ℝ
  bandPosition : ℝ
  proximityPct : ℝ
  fetchError : Option String

/-- Field `meta` of a Yahoo chart result entry; `regularMarketPrice` may be
absent (the code falls back through `?? 0`). -/
structure ChartMeta where
  regularMarketPrice : Option ℝ
  symbol : String

/-- One entry of `indicators.quote`; a `null`/`NaN` close is `none`. -/
structure QuoteBlock where
  close : List (Option ℝ)

/-- Field `indicators` of a chart result entry. -/
structure IndicatorsBlock where
  quote : List QuoteBlock

/-- One entry of `chart.result`. -/
structure ChartResultEntry where
  meta : ChartMeta
  timestamp : List ℕ
  indicators : IndicatorsBlock

/-- The provider error envelope `{code, description}`. -/
structure ChartError where
  code : String
  description : String

/-- The `chart` object of the Yahoo response. -/
structure ChartBlock where
  result : Option (List ChartResultEntry)
  error : Option ChartError

/-- The YahooChartResponse shape of the batched hook: either a server-side
`error` string, or a `chart` object, or neither (malformed). -/
structure YahooChartResponse where
  chart : Option ChartBlock
  error : Option String

/-- processSingleResult of the batched useMarketData hook. `nowMs` stands for
`Date.now()`. -/
noncomputable def processSingleResult (json : YahooChartResponse) (symbolObj : SymbolDef)
    (nowMs : ℕ) : ScannerData :=
  let errBase : ScannerData :=
    { symbol := symbolObj.symbol
      display := symbolObj.display
      currentPrice := 0
      bands := none
      status := .ok
      lastUpdated := nowMs
      history := []
      bandPosition := 0.5
      proximityPct := 0
      fetchError := none }
  match json.error with
  | some e => { errBase with fetchError := some e }
  | none =>
  match json.chart with
  | none => { errBase with fetchError := some "No chart data" }
  | some cb =>
  match cb.error with
  | some err =>
      { errBase with
        fetchError := some (if err.description = "" then err.code else err.description) }
  | none =>
  match cb.result.bind List.head? with
  | none => { errBase with fetchError := some "No chart data" }
  | some result =>
  match result.indicators.quote.head? with
  | none => { errBase with fetchError := some "No chart data" }
  | some quote0 =>
    let closes : List ℝ := quote0.close.filterMap id
    if closes.length < 20 then
      { errBase with
        currentPrice := closes.getLast?.getD (result.meta.regularMarketPrice.getD 0)
        history := sliceLast closes 20
        fetchError := some ("Only " ++ toString closes.length ++ " candles (need 20)") }
    else
      let currentPrice := closes.getLast?.getD 0
      match calculateBollingerBands closes 20 2 with
      | some bands =>
          { symbol := symbolObj.symbol
            display := symbolObj.display
            currentPrice := currentPrice
            bands := some bands
            status := classifyStatus currentPrice bands
            lastUpdated := nowMs
            history := sliceLast closes 30
            bandPosition := getBandPosition currentPrice bands
            proximityPct := getProximityPct currentPrice bands
            fetchError := none }
      | none =>
          { symbol := symbolObj.symbol
            display := symbolObj.display
            currentPrice := currentPrice
            bands := none
            status := .ok
            lastUpdated := nowMs
            history := sliceLast closes 30
            bandPosition := 0.5
            proximityPct := 0
            fetchError := none }

/-- The error-shaped ScannerData the batch loop builds for a symbol whose
fetch failed (the repeated record literal of fetchAll). -/
def errResult (s : SymbolDef) (nowMs : ℕ) (msg : String) : ScannerData :=
  { symbol := s.symbol
    display := s.display
    currentPrice := 0
    bands := none
    status := .ok
    lastUpdated := nowMs
    history := []
    bandPosition := 0.5
    proximityPct := 0
    fetchError := some msg }

/-- Outcome of the single batched `/api/charts` HTTP call: a non-2xx status,
a thrown transport error (with an optional message), or a JSON body mapping
provider keys to per-symbol payloads. -/
inductive BatchOutcome where
  | httpError (status : ℕ)
  | networkError (msg : Option String)
  | ok (batchData : String → Option YahooChartResponse)

/-- One poll cycle of the batched fetchAll: per tracked symbol, the
ScanResult entry stored into `results`, in configuration order. -/
noncomputable def fetchAll (symbols : List SymbolDef) (outcome : BatchOutcome)
    (nowMs : ℕ) : List (String × ScannerData) :=
  match outcome with
  | .httpError status =>
      symbols.map fun s => (s.symbol, errResult s nowMs ("Server error: " ++ toString status))
  | .networkError msg =>
      symbols.map fun s => (s.symbol, errResult s nowMs (msg.getD "Network error"))
  | .ok batchData =>
      symbols.map fun symbolObj =>
        match batchData symbolObj.yahoo with
        | none => (symbolObj.symbol, errResult symbolObj nowMs "No response")
        | some json => (symbolObj.symbol, processSingleResult json symbolObj nowMs)

/-- CACHE_TTL of the vite yahoo middleware: 55 seconds, in milliseconds. -/
def CACHE_TTL : ℕ := 55000

/-- MIN_REQUEST_GAP of the vite yahoo middleware: 4 seconds between upstream
calls, in milliseconds. -/
def MIN_REQUEST_GAP : ℕ := 4000

/-- The module-level mutable state of the adapter: the `cache` map (payload
plus the `Date.now()` at which it was stored) and `lastRequestTime`. `P` is
the opaque payload type. -/
structure AdapterState (P : Type) where
  cache : String → Option (P × ℕ)
  lastRequestTime : ℕ

/-- One fetch request as the sequential model sees it: the symbol key, the
wall-clock time `now` at which the request runs its cache check, the payload
the upstream would return, and the upstream call duration. -/
structure FetchReq (P : Type) where
  key : String
  now : ℕ
  payload : P
  dur : ℕ

/-- The start time of an upstream call on a cache miss: the code sleeps
`MIN_REQUEST_GAP - (now - lastRequestTime)` when the gap has not yet elapsed,
then stamps `lastRequestTime = Date.now()`. -/
def upstreamCallStart {P : Type} (st : AdapterState P) (r : FetchReq P) : ℕ :=
  if r.now - st.lastRequestTime < MIN_REQUEST_GAP then st.lastRequestTime + MIN_REQUEST_GAP
  else r.now

/-- The cache-miss path of fetchWithRateLimit: wait out the gap, stamp
`lastRequestTime`, call upstream, store `{data, timestamp: Date.now()}` at
completion. Returns the payload, the new state, and `some callStart` marking
that an upstream call was issued at that time. -/
def issueUpstream {P : Type} (st : AdapterState P) (r : FetchReq P) :
    P × AdapterState P × Option ℕ :=
  let callStart := upstreamCallStart st r
  (r.payload,
   { cache := fun k => if k = r.key then some (r.payload, callStart + r.dur) else st.cache k
     lastRequestTime := callStart },
   some callStart)

/-- fetchWithRateLimit of the vite yahoo middleware, as a state transition:
serve from cache when the entry is younger than CACHE_TTL (no upstream call),
otherwise issue a rate-limited upstream call. -/
def fetchWithRateLimit {P : Type} (st : AdapterState P) (r : FetchReq P) :
    P × AdapterState P × Option ℕ :=
  match st.cache r.key with
  | some (d, ts) =>
      if r.now - ts < CACHE_TTL then (d, st, none)
      else issueUpstream st r
  | none => issueUpstream st r

/-- Run a sequence of fetch requests through the adapter in order (the batch
endpoint resolves symbols sequentially), collecting per-request the
`Option ℕ` upstream-call start time. -/
def runTrace {P : Type} (st : AdapterState P) : List (FetchReq P) → AdapterState P × List (Option ℕ)
  | [] => (st, [])
  | r :: rs =>
      let step := fetchWithRateLimit st r
      let rest := runTrace step.2.1 rs
      (rest.1, step.2.2 :: rest.2)

/-- Spec-side definition (§4.1): the arithmetic mean of a window, written as
the spec words it, for comparison with the code's calculateSMA. -/
noncomputable def specMean (w : List ℝ) : ℝ := w.sum / w.length

/-- Spec-side definition (§4.1): the population standard deviation of a
window (variance divided by the window length, not length − 1). -/
noncomputable def specStdDevPop (w : List ℝ) : ℝ :=
  Real.sqrt ((w.map fun v => (v - specMean w) ^ 2).sum / w.length)

theorem foldl_add_eq_sum (l : List ℝ) (a : ℝ) : l.foldl (· + ·) a = a + l.sum := by
  induction l generalizing a with
  | nil => simp
  | cons x xs ih => simp [List.foldl_cons, ih, List.sum_cons]; ring

theorem sliceLast_length_le (l : List ℝ) (n : ℕ) : (sliceLast l n).length ≤ n := by
  simp [sliceLast]
  omega

theorem sliceLast_length (l : List ℝ) (n : ℕ) (h : n ≤ l.length) :
    (sliceLast l n).length = n := by
  simp [sliceLast]
  omega

theorem windowVariance_nonneg (data : List ℝ) (period : ℕ) :
    0 ≤ windowVariance data period := by
  unfold windowVariance
  rw [foldl_add_eq_sum, zero_add]
  refine div_nonneg (List.sum_nonneg ?_) (Nat.cast_nonneg _)
  intro x hx
  obtain ⟨v, _, rfl⟩ := List.mem_map.mp hx
  positivity

/-- C3: for fewer than `period` values calculateSMA returns the sentinel 0
and calculateBollingerBands returns none; for at least `period` values the
bands have middle equal to the arithmetic mean of the trailing window and
upper/lower equal to middle plus/minus the multiplier times the population
standard deviation (variance divided by `period`, not `period − 1`). -/
theorem engine_mean_and_population_stddev (data : List ℝ) (period : ℕ) (mult : ℝ) :
    (data.length < period →
        calculateSMA data period = 0 ∧ calculateBollingerBands data period mult = none)
    ∧ (period ≤ data.length →
        calculateSMA data period = specMean (sliceLast data period) ∧
        ∃ b, calculateBollingerBands data period mult = some b ∧
          b.middle = specMean (sliceLast data period) ∧
          b.upper = b.middle + mult * specStdDevPop (sliceLast data period) ∧
          b.lower = b.middle - mult * specStdDevPop (sliceLast data period)) := by
  constructor
  · intro h
    constructor
    · simp [calculateSMA, h]
    · simp [calculateBollingerBands, h]
  · intro h
    have hnl : ¬data.length < period := not_lt.mpr h
    have hw : (sliceLast data period).length = period := sliceLast_length data period h
    have hsma : calculateSMA data period = specMean (sliceLast data period) := by
      rw [calculateSMA, if_neg hnl, foldl_add_eq_sum, zero_add, specMean, hw]
    refine ⟨hsma, ?_⟩
    have hsd : Real.sqrt (windowVariance data period) = specStdDevPop (sliceLast data period) := by
      rw [windowVariance, foldl_add_eq_sum, zero_add, specStdDevPop, hsma, hw]
    refine ⟨_, by rw [calculateBollingerBands, if_neg hnl], ?_, ?_, ?_⟩
    · exact hsma
    · rw [hsd]; ring
    · rw [hsd]; ring

/-- C3 witness: a 20-element constant series meets the long branch (SMA is
the window mean, bands present) and the empty series meets the short branch
(SMA 0, no bands). -/
theorem engine_mean_and_population_stddev_witness :
    ((List.replicate 20 (5:ℝ)).length < 20 → False)
    ∧ calculateSMA [] 20 = 0 ∧ calculateBollingerBands [] 20 2 = none
    ∧ ∃ b, calculateBollingerBands (List.replicate 20 (5:ℝ)) 20 2 = some b ∧
        b.middle = specMean (sliceLast (List.replicate 20 (5:ℝ)) 20) := by
  refine ⟨by simp, ?_, ?_, ?_⟩
  · exact ((engine_mean_and_population_stddev [] 20 2).1 (by simp)).1
  · exact ((engine_mean_and_population_stddev [] 20 2).1 (by simp)).2
  · obtain ⟨-, b, hb, hm, -, -⟩ :=
      (engine_mean_and_population_stddev (List.replicate 20 (5:ℝ)) 20 2).2 (by simp)
    exact ⟨b, hb, hm⟩

/-- C9: for a series of length at least `period` and a positive multiplier,
the bands satisfy lower ≤ middle ≤ upper, with all three equal exactly when
the trailing window has zero variance. -/
theorem bands_ordered_and_degenerate_iff_zero_variance (data : List ℝ) (period : ℕ)
    (mult : ℝ) (hlen : period ≤ data.length) (hmult : 0 < mult) :
    ∃ b, calculateBollingerBands data period mult = some b ∧
      b.lower ≤ b.middle ∧ b.middle ≤ b.upper ∧
      ((b.lower = b.middle ∧ b.middle = b.upper) ↔ windowVariance data period = 0) := by
  have hnl : ¬data.length < period := not_lt.mpr hlen
  have hvar := windowVariance_nonneg data period
  have hsd : 0 ≤ Real.sqrt (windowVariance data period) := Real.sqrt_nonneg _
  have hprod : 0 ≤ Real.sqrt (windowVariance data period) * mult :=
    mul_nonneg hsd hmult.le
  refine ⟨_, by rw [calculateBollingerBands, if_neg hnl], ?_, ?_, ?_⟩
  · simpa using hprod
  · simpa using hprod
  · constructor
    · rintro ⟨h1, -⟩
      have h1' : calculateSMA data period - Real.sqrt (windowVariance data period) * mult =
          calculateSMA data period := h1
      have hz : Real.sqrt (windowVariance data period) * mult = 0 := by linarith
      have hz' : Real.sqrt (windowVariance data period) = 0 :=
        (mul_eq_zero.mp hz).resolve_right hmult.ne'
      have hle : windowVariance data period ≤ 0 := Real.sqrt_eq_zero'.mp hz'
      linarith
    · intro h
      simp [h, Real.sqrt_zero]

/-- C9 witness: the 20-element constant series, period 20, multiplier 2. -/
theorem bands_ordered_and_degenerate_iff_zero_variance_witness :
    ∃ b, calculateBollingerBands (List.replicate 20 (7:ℝ)) 20 2 = some b ∧
      b.lower ≤ b.middle ∧ b.middle ≤ b.upper ∧
      ((b.lower = b.middle ∧ b.middle = b.upper) ↔
        windowVariance (List.replicate 20 (7:ℝ)) 20 = 0) :=
  bands_ordered_and_degenerate_iff_zero_variance (List.replicate 20 (7:ℝ)) 20 2
    (by simp) (by norm_num)

/-- C1 counterexample: with the zero-width bands (5, 5, 5) a price of 5 is
exactly equal to the lower band, yet the classifier returns above-upper (the
`price ≥ upper` check fires first), not below-lower as the claim asserts. -/
theorem classifyStatus_zero_width_lower_not_below :
    classifyStatus 5 ⟨5, 5, 5⟩ = AlertStatus.aboveUpper ∧
      classifyStatus 5 ⟨5, 5, 5⟩ ≠ AlertStatus.belowLower := by
  constructor
  · simp [classifyStatus]
  · simp [classifyStatus]

/-- C1 amended: the classifier is exactly the threshold if-chain of the
source (hence a deterministic function of price and bands alone); a price
exactly at the upper band is always above-upper, and a price exactly at the
lower band is below-lower provided the band has positive width. -/
theorem classifyStatus_breach_precedence (p : ℝ) (b : BollingerBand) :
    classifyStatus p b =
      (if p ≥ b.upper then AlertStatus.aboveUpper
       else if p ≤ b.lower then AlertStatus.belowLower
       else if p ≥ b.upper - (b.upper - b.lower) * 0.05 then AlertStatus.nearUpper
       else if p ≤ b.lower + (b.upper - b.lower) * 0.05 then AlertStatus.nearLower
       else AlertStatus.ok)
    ∧ classifyStatus b.upper b = AlertStatus.aboveUpper
    ∧ (b.lower < b.upper → classifyStatus b.lower b = AlertStatus.belowLower) := by
  refine ⟨rfl, ?_, ?_⟩
  · simp [classifyStatus]
  · intro h
    rw [classifyStatus]
    rw [if_neg (by simp; linarith), if_pos le_rfl]

/-- C1 witness: concrete bands (upper 10, middle 5, lower 0); the price 10
at the upper band is above-upper and the price 0 at the lower band of this
positive-width band is below-lower. -/
theorem classifyStatus_breach_precedence_witness :
    classifyStatus (10:ℝ) ⟨10, 5, 0⟩ = AlertStatus.aboveUpper ∧
      classifyStatus (0:ℝ) ⟨10, 5, 0⟩ = AlertStatus.belowLower := by
  refine ⟨(classifyStatus_breach_precedence 10 ⟨10, 5, 0⟩).2.1,
    (classifyStatus_breach_precedence 0 ⟨10, 5, 0⟩).2.2 (by norm_num)⟩

theorem filterMap_id_replicate_some (n : ℕ) (a : ℝ) :
    (List.replicate n (some a)).filterMap id = List.replicate n a := by
  induction n with
  | zero => simp
  | succ k ih => simp [List.replicate_succ, ih]

theorem getLastD_replicate_succ (n : ℕ) (a d : ℝ) :
    ((List.replicate (n + 1) a).getLast?).getD d = a := by
  induction n with
  | zero => rfl
  | succ k ih =>
      rw [List.replicate_succ, List.replicate_succ, List.getLast?_cons_cons,
        ← List.replicate_succ]
      exact ih

theorem sliceLast_replicate_self (n m : ℕ) (a : ℝ) (h : n ≤ m) :
    sliceLast (List.replicate n a) m = List.replicate n a := by
  simp [sliceLast]
  omega

theorem calcSMA_const100 : calculateSMA (List.replicate 20 (100:ℝ)) 20 = 100 := by
  rw [calculateSMA, if_neg (by simp), sliceLast_replicate_self 20 20 100 le_rfl,
    foldl_add_eq_sum, zero_add, List.sum_replicate]
  norm_num

theorem windowVariance_const100 : windowVariance (List.replicate 20 (100:ℝ)) 20 = 0 := by
  rw [windowVariance, sliceLast_replicate_self 20 20 100 le_rfl, calcSMA_const100,
    List.map_replicate, foldl_add_eq_sum, zero_add, List.sum_replicate]
  norm_num

theorem calcBands_const100 :
    calculateBollingerBands (List.replicate 20 (100:ℝ)) 20 2 =
      some ⟨100, 100, 100⟩ := by
  rw [calculateBollingerBands, if_neg (by simp)]
  simp only [calcSMA_const100, windowVariance_const100, Real.sqrt_zero]
  norm_num

/-- The tracked-symbol descriptor used in concrete evaluations. -/
def demoSym : SymbolDef := ⟨"EURUSD", "forex", "EUR/USD", "EURUSD=X"⟩

/-- A quote block of twenty identical valid closes of 100. -/
def quote100 : QuoteBlock := ⟨List.replicate 20 (some (100:ℝ))⟩

/-- A chart result entry whose only quote block is `quote100`. -/
def entry100 : ChartResultEntry := ⟨⟨some 100, "EURUSD=X"⟩, [], ⟨[quote100]⟩⟩

/-- A well-formed provider payload carrying twenty closes of 100. -/
def json100 : YahooChartResponse := ⟨some ⟨some [entry100], none⟩, none⟩

theorem processSingle_const100_eq :
    processSingleResult json100 demoSym 0 =
      { symbol := "EURUSD"
        display := "EUR/USD"
        currentPrice := 100
        bands := some ⟨100, 100, 100⟩
        status := .aboveUpper
        lastUpdated := 0
        history := List.replicate 20 (100:ℝ)
        bandPosition := 0.5
        proximityPct := 0
        fetchError := none } := by
  rw [processSingleResult]
  simp only [json100, entry100, quote100, demoSym, List.head?, Option.bind,
    filterMap_id_replicate_some]
  rw [if_neg (by simp)]
  simp only [calcBands_const100, getLastD_replicate_succ 19 100 0,
    sliceLast_replicate_self 20 30 100 (by omega)]
  have hstatus : classifyStatus 100 ⟨100, 100, 100⟩ = AlertStatus.aboveUpper := by
    simp [classifyStatus]
  have hpos : getBandPosition 100 ⟨100, 100, 100⟩ = 0.5 := by
    simp [getBandPosition]
  have hprox : getProximityPct 100 ⟨100, 100, 100⟩ = 0 := by
    simp [getProximityPct]
  rw [hstatus, hpos, hprox]

/-- C2 counterexample: for the payload of twenty identical closes of 100 the
pipeline classifies the symbol above-upper (price 100 ≥ upper 100), not `ok`
as the claim states. -/
theorem pipeline_const100_status_not_ok :
    (processSingleResult json100 demoSym 0).status ≠ AlertStatus.ok := by
  rw [processSingle_const100_eq]
  simp

/-- C2 amended: twenty identical closes of 100 give the degenerate bands
lower = middle = upper = 100 and bandPosition 0.5, but the status is
above-upper, because the breach check `price ≥ upper` fires on a zero-width
band. -/
theorem pipeline_const100_bands_and_status :
    (processSingleResult json100 demoSym 0).bands = some ⟨100, 100, 100⟩ ∧
      (processSingleResult json100 demoSym 0).status = AlertStatus.aboveUpper ∧
      (processSingleResult json100 demoSym 0).bandPosition = 0.5 := by
  rw [processSingle_const100_eq]
  exact ⟨rfl, rfl, rfl⟩

/-- C5: a payload that passes every shape check but yields fewer than 20
valid closes after null/NaN filtering is treated as a fetch error whose
message carries the actual post-filter count, with bands absent, status ok,
bandPosition 0.5 and proximityPct 0. -/
theorem insufficient_candles_fetchError (json : YahooChartResponse) (sym : SymbolDef)
    (nowMs : ℕ) (cb : ChartBlock) (entry : ChartResultEntry) (qb : QuoteBlock)
    (herr : json.error = none) (hchart : json.chart = some cb) (hcberr : cb.error = none)
    (hres : cb.result.bind List.head? = some entry)
    (hq : entry.indicators.quote.head? = some qb)
    (hlen : (qb.close.filterMap id).length < 20) :
    (processSingleResult json sym nowMs).fetchError =
        some ("Only " ++ toString (qb.close.filterMap id).length ++ " candles (need 20)") ∧
      (processSingleResult json sym nowMs).bands = none ∧
      (processSingleResult json sym nowMs).status = AlertStatus.ok ∧
      (processSingleResult json sym nowMs).bandPosition = 0.5 ∧
      (processSingleResult json sym nowMs).proximityPct = 0 := by
  rw [processSingleResult]
  simp only [herr, hchart, hcberr, hres, hq]
  rw [if_pos hlen]
  exact ⟨rfl, rfl, rfl, rfl, rfl⟩

/-- A quote block whose close array holds three valid closes and one null. -/
def quote3 : QuoteBlock := ⟨[some 1, none, some 2, some 3]⟩

/-- A chart result entry whose only quote block is `quote3`. -/
def entry3 : ChartResultEntry := ⟨⟨some 5, "EURUSD=X"⟩, [], ⟨[quote3]⟩⟩

/-- A well-formed provider payload with only three valid closes. -/
def json3 : YahooChartResponse := ⟨some ⟨some [entry3], none⟩, none⟩

/-- C5 witness: the three-close payload produces the error string with the
count 3 and the neutral sentinels. -/
theorem insufficient_candles_fetchError_witness :
    (processSingleResult json3 demoSym 0).fetchError = some "Only 3 candles (need 20)" ∧
      (processSingleResult json3 demoSym 0).bands = none ∧
      (processSingleResult json3 demoSym 0).status = AlertStatus.ok ∧
      (processSingleResult json3 demoSym 0).bandPosition = 0.5 ∧
      (processSingleResult json3 demoSym 0).proximityPct = 0 := by
  obtain ⟨h1, h2, h3, h4, h5⟩ :=
    insufficient_candles_fetchError json3 demoSym 0 ⟨some [entry3], none⟩ entry3 quote3
      rfl rfl rfl rfl rfl (by simp [quote3])
  refine ⟨?_, h2, h3, h4, h5⟩
  rw [h1]
  rfl

theorem processSingleResult_primary_signal (json : YahooChartResponse)
    (sym : SymbolDef) (nowMs : ℕ) :
    ((processSingleResult json sym nowMs).fetchError.isSome = true →
      (processSingleResult json sym nowMs).bands = none ∧
      (processSingleResult json sym nowMs).status = AlertStatus.ok ∧
      (processSingleResult json sym nowMs).bandPosition = 0.5 ∧
      (processSingleResult json sym nowMs).proximityPct = 0) ∧
    ((processSingleResult json sym nowMs).bands.isSome = true →
      (processSingleResult json sym nowMs).fetchError = none) := by
  rw [processSingleResult]
  repeat' split
  all_goals simp
  all_goals (repeat' split)
  all_goals simp

/-- C4: every poll cycle produces exactly one ScanResult per tracked symbol,
in configuration order, and any entry whose fetchError is set carries the
neutral sentinels: no bands, status ok, bandPosition 0.5, proximityPct 0. -/
theorem cycle_total_and_errors_neutral (symbols : List SymbolDef)
    (outcome : BatchOutcome) (nowMs : ℕ) :
    (fetchAll symbols outcome nowMs).map Prod.fst = symbols.map SymbolDef.symbol ∧
    ∀ p ∈ fetchAll symbols outcome nowMs, p.2.fetchError.isSome = true →
      p.2.bands = none ∧ p.2.status = AlertStatus.ok ∧
      p.2.bandPosition = 0.5 ∧ p.2.proximityPct = 0 := by
  constructor
  · cases outcome with
    | httpError s => simp [fetchAll]
    | networkError m => simp [fetchAll]
    | ok bd =>
        simp only [fetchAll, List.map_map]
        refine List.map_congr_left ?_
        intro s _
        cases hbd : bd s.yahoo <;> simp [Function.comp, hbd]
  · intro p hp herr
    cases outcome with
    | httpError s =>
        obtain ⟨sy, -, rfl⟩ := List.mem_map.mp hp
        exact ⟨rfl, rfl, rfl, rfl⟩
    | networkError m =>
        obtain ⟨sy, -, rfl⟩ := List.mem_map.mp hp
        exact ⟨rfl, rfl, rfl, rfl⟩
    | ok bd =>
        obtain ⟨sy, -, rfl⟩ := List.mem_map.mp hp
        cases hbd : bd sy.yahoo with
        | none => exact ⟨rfl, rfl, rfl, rfl⟩
        | some j =>
            rw [hbd] at herr
            exact (processSingleResult_primary_signal j sy nowMs).1 herr

/-- C4 witness: a transport failure of the batched call yields exactly one
entry for the single tracked symbol, with fetchError set and neutral
sentinels. -/
theorem cycle_total_and_errors_neutral_witness :
    (fetchAll [demoSym] (BatchOutcome.networkError none) 0).map Prod.fst =
        [demoSym].map SymbolDef.symbol ∧
      ((errResult demoSym 0 "Network error").bands = none ∧
        (errResult demoSym 0 "Network error").status = AlertStatus.ok ∧
        (errResult demoSym 0 "Network error").bandPosition = 0.5 ∧
        (errResult demoSym 0 "Network error").proximityPct = 0) := by
  refine ⟨(cycle_total_and_errors_neutral [demoSym] (BatchOutcome.networkError none) 0).1, ?_⟩
  exact (cycle_total_and_errors_neutral [demoSym] (BatchOutcome.networkError none) 0).2
    (demoSym.symbol, errResult demoSym 0 "Network error") (by simp [fetchAll]) rfl

/-- C6: in every cycle result, the primary signal is exclusive — an entry
with fetchError set has status ok and no bands, while an entry carrying
bands carries no fetchError. -/
theorem result_primary_signal_exclusive (symbols : List SymbolDef)
    (outcome : BatchOutcome) (nowMs : ℕ) :
    ∀ p ∈ fetchAll symbols outcome nowMs,
      (p.2.fetchError.isSome = true →
        p.2.status = AlertStatus.ok ∧ p.2.bands = none) ∧
      (p.2.bands.isSome = true → p.2.fetchError = none) := by
  intro p hp
  cases outcome with
  | httpError s =>
      obtain ⟨sy, -, rfl⟩ := List.mem_map.mp hp
      exact ⟨fun _ => ⟨rfl, rfl⟩, fun h => by simp [errResult] at h⟩
  | networkError m =>
      obtain ⟨sy, -, rfl⟩ := List.mem_map.mp hp
      exact ⟨fun _ => ⟨rfl, rfl⟩, fun h => by simp [errResult] at h⟩
  | ok bd =>
      obtain ⟨sy, -, rfl⟩ := List.mem_map.mp hp
      cases hbd : bd sy.yahoo with
      | none =>
          exact ⟨fun _ => ⟨rfl, rfl⟩, fun h => by simp [errResult] at h⟩
      | some j =>
          obtain ⟨h1, h2⟩ := processSingleResult_primary_signal j sy nowMs
          exact ⟨fun he => ⟨(h1 he).2.1, (h1 he).1⟩, h2⟩

/-- C6 witness: a cycle whose batch body lacks every symbol's payload yields
a "No response" error entry satisfying both exclusivity directions. -/
theorem result_primary_signal_exclusive_witness :
    ((errResult demoSym 0 "No response").fetchError.isSome = true →
      (errResult demoSym 0 "No response").status = AlertStatus.ok ∧
      (errResult demoSym 0 "No response").bands = none) ∧
    ((errResult demoSym 0 "No response").bands.isSome = true →
      (errResult demoSym 0 "No response").fetchError = none) :=
  result_primary_signal_exclusive [demoSym] (BatchOutcome.ok fun _ => none) 0
    (demoSym.symbol, errResult demoSym 0 "No response") (by simp [fetchAll])

/-- The valid-close extraction of processSingleResult: `none` on any error
or shape-check branch, otherwise the null/NaN-filtered close list. -/
def scanCloses (json : YahooChartResponse) : Option (List ℝ) :=
  match json.error with
  | some _ => none
  | none =>
  match json.chart with
  | none => none
  | some cb =>
  match cb.error with
  | some _ => none
  | none =>
  match cb.result.bind List.head? with
  | none => none
  | some result =>
  match result.indicators.quote.head? with
  | none => none
  | some quote0 => some (quote0.close.filterMap id)

theorem processSingleResult_history (json : YahooChartResponse) (sym : SymbolDef)
    (nowMs : ℕ) :
    (processSingleResult json sym nowMs).history =
      match scanCloses json with
      | none => []
      | some closes =>
          if closes.length < 20 then sliceLast closes 20 else sliceLast closes 30 := by
  rw [processSingleResult, scanCloses]
  repeat' split
  all_goals simp
  all_goals (repeat' split)
  all_goals simp_all
  all_goals omega

/-- C10: every ScanResult's history has at most 30 entries — the last 30
filtered closes on success, at most the last 20 filtered closes on
insufficient history, and empty on every other fetch error. -/
theorem history_bounded (json : YahooChartResponse) (sym : SymbolDef) (nowMs : ℕ) :
    (processSingleResult json sym nowMs).history.length ≤ 30 ∧
    (∀ closes, scanCloses json = some closes →
      (20 ≤ closes.length →
        (processSingleResult json sym nowMs).history = sliceLast closes 30) ∧
      (closes.length < 20 →
        (processSingleResult json sym nowMs).history = sliceLast closes 20 ∧
        (processSingleResult json sym nowMs).history.length ≤ 20)) ∧
    (scanCloses json = none → (processSingleResult json sym nowMs).history = []) := by
  have h := processSingleResult_history json sym nowMs
  refine ⟨?_, ?_, ?_⟩
  · rw [h]
    cases hs : scanCloses json with
    | none => simp
    | some closes =>
        simp only
        split
        · exact le_trans (sliceLast_length_le _ _) (by norm_num)
        · exact sliceLast_length_le _ _
  · intro closes hc
    constructor
    · intro h20
      rw [h, hc]
      simp [not_lt.mpr h20]
    · intro hlt
      have hh : (processSingleResult json sym nowMs).history = sliceLast closes 20 := by
        rw [h, hc]
        simp [hlt]
      exact ⟨hh, hh ▸ sliceLast_length_le _ _⟩
  · intro hn
    rw [h, hn]

/-- C10 witness: the three-close payload lands in the insufficient branch,
its history is the trailing-20 slice of the filtered closes and is within
both bounds. -/
theorem history_bounded_witness :
    (processSingleResult json3 demoSym 0).history.length ≤ 30 ∧
      (processSingleResult json3 demoSym 0).history =
        sliceLast (quote3.close.filterMap id) 20 ∧
      (processSingleResult json3 demoSym 0).history.length ≤ 20 := by
  obtain ⟨h30, hmid, -⟩ := history_bounded json3 demoSym 0
  obtain ⟨heq, hle⟩ := (hmid (quote3.close.filterMap id) rfl).2 (by simp [quote3])
  exact ⟨h30, heq, hle⟩

theorem issueUpstream_start_ge {P : Type} (st : AdapterState P) (r : FetchReq P) :
    st.lastRequestTime + MIN_REQUEST_GAP ≤ upstreamCallStart st r := by
  unfold upstreamCallStart
  split
  · exact le_rfl
  · rename_i hcond
    simp only [MIN_REQUEST_GAP] at hcond ⊢
    omega

theorem fetchWithRateLimit_cases {P : Type} (st : AdapterState P) (r : FetchReq P) :
    ((fetchWithRateLimit st r).2.2 = none ∧ (fetchWithRateLimit st r).2.1 = st) ∨
    ((fetchWithRateLimit st r).2.2 = some (upstreamCallStart st r) ∧
      (fetchWithRateLimit st r).2.1.lastRequestTime = upstreamCallStart st r) := by
  rw [fetchWithRateLimit]
  cases hcache : st.cache r.key with
  | none => right; exact ⟨rfl, rfl⟩
  | some dts =>
      obtain ⟨d, ts⟩ := dts
      by_cases hfresh : r.now - ts < CACHE_TTL
      · left
        simp [hfresh]
      · right
        simp [hfresh, issueUpstream]

theorem runTrace_chain {P : Type} (reqs : List (FetchReq P)) :
    ∀ st : AdapterState P,
      List.Chain' (fun a b => a + MIN_REQUEST_GAP ≤ b)
        (st.lastRequestTime :: ((runTrace st reqs).2.filterMap id)) := by
  induction reqs with
  | nil => intro st; simp [runTrace]
  | cons r rs ih =>
      intro st
      have hunfold : (runTrace st (r :: rs)).2 =
          (fetchWithRateLimit st r).2.2 :: (runTrace (fetchWithRateLimit st r).2.1 rs).2 := rfl
      rw [hunfold]
      rcases fetchWithRateLimit_cases st r with ⟨hc, hst⟩ | ⟨hc, hst⟩
      · rw [hc, hst]
        simpa using ih st
      · rw [hc]
        simp only [List.filterMap_cons, id]
        rw [List.chain'_cons]
        refine ⟨issueUpstream_start_ge st r, ?_⟩
        have := ih (fetchWithRateLimit st r).2.1
        rwa [hst] at this

/-- C8: in any sequential trace of adapter fetches, regardless of symbol
keys, the start times of consecutive upstream calls (cache misses) are at
least MIN_REQUEST_GAP apart, because the last-request timestamp is shared
across all keys. -/
theorem upstream_calls_spaced (st : AdapterState ℕ) (reqs : List (FetchReq ℕ)) :
    List.Chain' (fun a b => a + MIN_REQUEST_GAP ≤ b)
      ((runTrace st reqs).2.filterMap id) :=
  (runTrace_chain reqs st).tail

/-- C7: when a fetch for a key finds the entry stored by an earlier fetch of
that key still younger than CACHE_TTL, it issues no upstream call, returns
the cached payload, leaves the state unchanged, and the two fetches issue at
most one upstream call in total. -/
theorem cache_hit_within_ttl (st : AdapterState ℕ) (r1 r2 : FetchReq ℕ)
    (hkey : r2.key = r1.key) (p t : ℕ)
    (hc : (fetchWithRateLimit st r1).2.1.cache r2.key = some (p, t))
    (httl : r2.now - t < CACHE_TTL) :
    fetchWithRateLimit (fetchWithRateLimit st r1).2.1 r2 =
      (p, (fetchWithRateLimit st r1).2.1, none) ∧
    (fetchWithRateLimit st r1).2.2.toList.length +
      (fetchWithRateLimit (fetchWithRateLimit st r1).2.1 r2).2.2.toList.length ≤ 1 := by
  have hstep : fetchWithRateLimit (fetchWithRateLimit st r1).2.1 r2 =
      (p, (fetchWithRateLimit st r1).2.1, none) := by
    generalize hs : (fetchWithRateLimit st r1).2.1 = st1 at hc ⊢
    rw [fetchWithRateLimit, hc]
    simp [httl]
  refine ⟨hstep, ?_⟩
  rw [hstep]
  cases (fetchWithRateLimit st r1).2.2 <;> simp

/-- The adapter state at process start: empty cache, lastRequestTime 0. -/
def adapterInit : AdapterState ℕ := ⟨fun _ => none, 0⟩

/-- A first fetch for EURUSD=X at t = 10000 ms returning payload 42 after a
100 ms upstream call. -/
def req1 : FetchReq ℕ := ⟨"EURUSD=X", 10000, 42, 100⟩

/-- A second fetch for the same key at t = 20000 ms, within the TTL. -/
def req2 : FetchReq ℕ := ⟨"EURUSD=X", 20000, 99, 50⟩

/-- C7 witness: the second fetch of EURUSD=X 9.9 s after the first's cache
store is served from cache, with one upstream call in total. -/
theorem cache_hit_within_ttl_witness :
    fetchWithRateLimit (fetchWithRateLimit adapterInit req1).2.1 req2 =
      (42, (fetchWithRateLimit adapterInit req1).2.1, none) ∧
    (fetchWithRateLimit adapterInit req1).2.2.toList.length +
      (fetchWithRateLimit (fetchWithRateLimit adapterInit req1).2.1 req2).2.2.toList.length
        ≤ 1 :=
  cache_hit_within_ttl adapterInit req1 req2 rfl 42 10100 (by decide) (by decide)

end BollingerScanner
